import Mathlib

/-!
Shallow embedding of the teamwork-mcp adapter (src/teamwork_mcp/client.py,
src/teamwork_mcp/server.py) together with theorems checking the
natural-language specification against it.

Python dictionaries are modelled as association lists with dict-style
insertion (overwrite in place when the key already exists, append
otherwise).  A client method that would issue an HTTP request is modelled
as a pure function returning the request it would issue; a method that
raises before reaching the network returns an error instead, so
"raises before any network request" becomes "the result is an error and
no request value is produced".  Machine integers are Int, strings are
Lean strings (sequences of characters, as in Python); the project
description manipulated by character-slicing is modelled as List Char.
-/

/-- A JSON-ish field value as used in the request payloads built by the
client: strings, integers, booleans and lists of strings. -/
inductive FieldVal where
  | s (v : String)
  | i (v : Int)
  | b (v : Bool)
  | ls (vs : List String)
deriving DecidableEq, Repr

/-- Payload object: ordered key/value pairs, as a Python dict. -/
abbrev Payload := List (String × FieldVal)

/-- Dict-style assignment d[k] = v: overwrite in place when the key is
present, append at the end otherwise (Python dict semantics). -/
def dinsert (k : String) (v : FieldVal) (d : Payload) : Payload :=
  if d.any (fun kv => kv.1 = k) then
    d.map (fun kv => if kv.1 = k then (k, v) else kv)
  else
    d ++ [(k, v)]

/-- Conditional assignment: perform d[k] = v only when the optional value
is present (the Python pattern "if x is not None: payload[k] = x"). -/
def optField (k : String) (v : Option FieldVal) (d : Payload) : Payload :=
  match v with
  | some x => dinsert k x d
  | none => d

/-- Python truthiness for an optional string argument: "if description:"
adds the field only when the string is present and non-empty. -/
def truthyStr (v : Option String) : Option FieldVal :=
  match v with
  | some x => if x = "" then none else some (FieldVal.s x)
  | none => none

/-- Python truthiness for an optional list argument: "if assignee_ids:"
adds the field only when the list is present and non-empty. -/
def truthyList (v : Option (List String)) : Option FieldVal :=
  match v with
  | some x => if x = [] then none else some (FieldVal.ls x)
  | none => none

/-- The HTTP request a client method would issue: method, path relative
to the versioned base URL, whether it goes to the legacy v1 API, and the
JSON body as an envelope key wrapping a payload object. -/
structure Request where
  method : String
  path : String
  v1 : Bool
  envelope : Option (String × Payload)
deriving DecidableEq, Repr

/-- Validation plus insertion of estimatedMinutes, shared by
create_task and update_task (client.py lines 217-220 and 266-269):
when supplied, a non-positive value raises ValueError before the
network request. -/
def addEstimated (v : Option Int) (d : Payload) : Except String Payload :=
  match v with
  | none => Except.ok d
  | some e =>
    if e ≤ 0 then Except.error "estimated_minutes must be a positive value"
    else Except.ok (dinsert "estimatedMinutes" (FieldVal.i e) d)

/-- Validation plus insertion of progress, shared by create_task and
update_task (client.py lines 221-224 and 270-273): when supplied, a
value outside 0..100 raises ValueError before the network request. -/
def addProgress (v : Option Int) (d : Payload) : Except String Payload :=
  match v with
  | none => Except.ok d
  | some p =>
    if 0 ≤ p ∧ p ≤ 100 then Except.ok (dinsert "progress" (FieldVal.i p) d)
    else Except.error "progress must be between 0 and 100"

/-- TeamworkClient.create_task (client.py lines 180-226).  The returned
value is the POST request the method would issue; an error is a
ValueError raised while building the payload, before any network
request.  The tasklist id is modelled as the integer the source obtains
via int(tasklist_id). -/
def create_task (name : String) (tasklist_id : Int)
    (description due_date : Option String)
    (assignee_ids : Option (List String)) (priority : Option String)
    (estimated_minutes progress : Option Int) : Except String Request :=
  let d0 : Payload := [("name", FieldVal.s name), ("tasklistId", FieldVal.i tasklist_id)]
  let d1 := optField "description" (truthyStr description) d0
  let d2 := optField "dueDate" (truthyStr due_date) d1
  let d3 := optField "assigneeIds" (truthyList assignee_ids) d2
  let d4 := optField "priority" (truthyStr priority) d3
  match addEstimated estimated_minutes d4 with
  | Except.error msg => Except.error msg
  | Except.ok d5 =>
    match addProgress progress d5 with
    | Except.error msg => Except.error msg
    | Except.ok d6 =>
      Except.ok { method := "POST"
                , path := "/tasklists/" ++ toString tasklist_id ++ "/tasks.json"
                , v1 := false
                , envelope := some ("task", d6) }

/-- TeamworkClient.update_task (client.py lines 228-278).  The returned
value is the PATCH request the method would issue; an error is a
ValueError raised while building the payload, before any network
request.  The source assigns the completed field a second time after
the validations (lines 275-276); on a dict this overwrites the earlier
identical assignment, which dinsert reproduces. -/
def update_task (task_id : String) (name description : Option String)
    (completed : Option Bool) (due_date priority : Option String)
    (estimated_minutes progress : Option Int) : Except String Request :=
  let d0 : Payload := []
  let d1 := optField "name" (name.map FieldVal.s) d0
  let d2 := optField "description" (description.map FieldVal.s) d1
  let d3 := optField "completed" (completed.map FieldVal.b) d2
  let d4 := optField "dueDate" (due_date.map FieldVal.s) d3
  let d5 := optField "priority" (priority.map FieldVal.s) d4
  match addEstimated estimated_minutes d5 with
  | Except.error msg => Except.error msg
  | Except.ok d6 =>
    match addProgress progress d6 with
    | Except.error msg => Except.error msg
    | Except.ok d7 =>
      let d8 := optField "completed" (completed.map FieldVal.b) d7
      Except.ok { method := "PATCH"
                , path := "/tasks/" ++ task_id ++ ".json"
                , v1 := false
                , envelope := some ("task", d8) }

/-- TeamworkClient.complete_task (client.py lines 280-282): delegates to
update_task with completed=True. -/
def complete_task (task_id : String) : Except String Request :=
  update_task task_id none none (some true) none none none none

/-- TeamworkClient.update_project (client.py lines 628-655): raises
ValueError when no update field is supplied, otherwise issues a PATCH
request with the supplied fields. -/
def update_project (project_id : String)
    (name description status start_date end_date : Option String) :
    Except String Request :=
  if name = none ∧ description = none ∧ status = none ∧
      start_date = none ∧ end_date = none then
    Except.error "update_project requires at least one field to update"
  else
    let d0 : Payload := []
    let d1 := optField "name" (name.map FieldVal.s) d0
    let d2 := optField "description" (description.map FieldVal.s) d1
    let d3 := optField "status" (status.map FieldVal.s) d2
    let d4 := optField "startDate" (start_date.map FieldVal.s) d3
    let d5 := optField "endDate" (end_date.map FieldVal.s) d4
    Except.ok { method := "PATCH"
              , path := "/projects/" ++ project_id ++ ".json"
              , v1 := false
              , envelope := some ("project", d5) }

/-- TeamworkClient.archive_project (client.py lines 657-659): delegates
to update_project with status="archived". -/
def archive_project (project_id : String) : Except String Request :=
  update_project project_id none none (some "archived") none none

/-- TeamworkClient.update_task_list (client.py lines 663-683): raises
ValueError when neither name nor description is supplied, otherwise
issues a PUT request to the v1 API with the todo-list envelope. -/
def update_task_list (tasklist_id : String)
    (name description : Option String) : Except String Request :=
  if name = none ∧ description = none then
    Except.error "update_task_list requires at least one of name or description"
  else
    let d0 : Payload := []
    let d1 := optField "name" (name.map FieldVal.s) d0
    let d2 := optField "description" (description.map FieldVal.s) d1
    Except.ok { method := "PUT"
              , path := "/tasklists/" ++ tasklist_id ++ ".json"
              , v1 := true
              , envelope := some ("todo-list", d2) }

/-- Health indicator of TeamworkClient.get_project_summary (client.py
lines 414-419): with zero tasks the guard short-circuits to on-track
without evaluating the division; otherwise the overdue percentage is
computed as (overdue_count / total_count) * 100 (exact rational
division) and the project is at-risk when that percentage is at least
10 or the overdue count is at least 3. -/
def healthIndicator (total_count overdue_count : Nat) : String :=
  if total_count = 0 then "on-track"
  else
    let overdue_pct : ℚ := ((overdue_count : ℚ) / (total_count : ℚ)) * 100
    if 10 ≤ overdue_pct ∨ 3 ≤ overdue_count then "at-risk" else "on-track"

/-- Description truncation of TeamworkClient.get_project_summary
(client.py lines 423-425): description[:197] + "..." when the
description exceeds 200 characters, unchanged otherwise. -/
def truncateDescription (description : List Char) : List Char :=
  if 200 < description.length then description.take 197 ++ ['.', '.', '.']
  else description

/-- The project metadata fields get_project_summary reads from the
project response (each via dict.get, hence optional). -/
structure ProjectData where
  id : Option Int
  name : Option String
  status : Option String
  description : Option (List Char)
deriving DecidableEq, Repr

/-- The summary built by get_project_summary (client.py lines 426-439):
project info with the possibly truncated description, the three task
counts, and the health classification. -/
structure ProjectSummary where
  id : Option Int
  name : Option String
  status : Option String
  description : List Char
  total : Nat
  overdue : Nat
  dueThisWeek : Nat
  health : String
deriving DecidableEq, Repr

/-- TeamworkClient.get_project_summary (client.py lines 371-439) as a
function of the data the four remote calls return: the project
metadata and the three aggregate counts read from meta.page.count
(total tasks, overdue tasks, tasks due this week).  A missing
description is replaced by the empty string before truncation
(description = project_data.get("description", "") or ""). -/
def get_project_summary (p : ProjectData)
    (total_count overdue_count thisweek_count : Nat) : ProjectSummary :=
  { id := p.id
  , name := p.name
  , status := p.status
  , description := truncateDescription (p.description.getD [])
  , total := total_count
  , overdue := overdue_count
  , dueThisWeek := thisweek_count
  , health := healthIndicator total_count overdue_count }

/-- An official budget reference attached to a project in the list
response, identified by its id (cf. financialBudget.id in the repo's
scripts). -/
structure BudgetRef where
  id : Int
deriving DecidableEq, Repr

/-- The fields of a raw project object in the /projects.json response
that the adapter reads: identity and status fields, the parent company,
and the optional time/financial budget references. -/
structure RawProject where
  id : Option Int
  name : Option String
  status : Option String
  companyName : Option String
  timeBudget : Option BudgetRef
  financialBudget : Option BudgetRef
deriving DecidableEq, Repr

/-- Entry of the minimal projection: ordered keys with nullable values,
as the Python dict literal built per project. -/
abbrev MinimalEntry := List (String × Option FieldVal)

/-- The minimal projection TeamworkClient.list_projects applies to each
project when include_details is false (client.py lines 122-131): a dict
with exactly the keys id, name, status and company. -/
def minimalProject (p : RawProject) : MinimalEntry :=
  [ ("id", p.id.map FieldVal.i)
  , ("name", p.name.map FieldVal.s)
  , ("status", p.status.map FieldVal.s)
  , ("company", p.companyName.map FieldVal.s) ]

/-- TeamworkClient.list_projects response shaping in minimal mode
(client.py lines 122-135): every project of the response page is
replaced by its minimal projection. -/
def list_projects_minimal (projects : List RawProject) : List MinimalEntry :=
  projects.map minimalProject

/-- Configuration/authentication failures of session construction. -/
inductive AuthError where
  | missingToken
  | missingDomain
deriving DecidableEq, Repr

/-- The authenticated session object: TeamworkClient.__init__
(client.py lines 23-34) stores the token and installation domain and
derives the v3 base URL. -/
structure Client where
  access_token : String
  installation_domain : String
  base_url : String
deriving DecidableEq, Repr

/-- Python "a or b" on an optional string against a default: the left
operand wins exactly when present and non-empty (truthy). -/
def pyOrStr (a : Option String) (b : String) : String :=
  match a with
  | some v => if v = "" then b else v
  | none => b

/-- get_teamwork_client (teamwork_mcp/server.py lines 41-66): the
session-construction step run on every inbound tool call, before any
remote request.  The token extracted from the Authorization header and
the x-teamwork-domain header are optional inputs; the default domain
comes from the TEAMWORK_DOMAIN environment variable (empty string when
unset).  A missing/empty token and a missing domain raise distinct
ValueErrors; otherwise the authenticated client is constructed. -/
def get_teamwork_client (token : Option String)
    (header_domain : Option String) (default_domain : String) :
    Except AuthError Client :=
  match token with
  | none => Except.error AuthError.missingToken
  | some t =>
    if t = "" then Except.error AuthError.missingToken
    else
      let domain := pyOrStr header_domain default_domain
      if domain = "" then Except.error AuthError.missingDomain
      else Except.ok { access_token := t
                     , installation_domain := domain
                     , base_url := "https://" ++ domain ++ "/projects/api/v3" }

/-- Outcome of the underlying HTTP transport for a v1 request: either a
network-level failure (timeout, connection refused, DNS) raised as a
requests.RequestException, or a response with a status code and a body. -/
inductive HttpOutcome where
  | networkFailure (msg : String)
  | response (status : Nat) (body : String)
deriving DecidableEq, Repr

/-- Result of TeamworkClient._request_v1: the decoded body, the
normalized success marker for empty responses, or one of the two
RuntimeError kinds the method raises. -/
inductive V1Result where
  | ok (body : String)
  | successMarker
  | apiError (status : Nat) (body : String)
  | transportError (msg : String)
deriving DecidableEq, Repr

/-- TeamworkClient._request_v1 response handling (client.py lines
66-95) as a function of the transport outcome.  raise_for_status raises
HTTPError exactly for status codes 400-599, which the method converts
to a RuntimeError carrying the status code and raw body text; a
RequestException becomes a distinct RuntimeError; a surviving response
with status 204 or an empty body is normalized to the success marker,
and any other surviving response is decoded and returned. -/
def request_v1 (outcome : HttpOutcome) : V1Result :=
  match outcome with
  | HttpOutcome.networkFailure msg => V1Result.transportError msg
  | HttpOutcome.response status body =>
    if 400 ≤ status ∧ status < 600 then V1Result.apiError status body
    else if status = 204 ∨ body = "" then V1Result.successMarker
    else V1Result.ok body

/-- Per-task time figures aggregated by the time-totals operations. -/
structure TaskTime where
  estimated_minutes : Int
  logged_minutes : Int
deriving DecidableEq, Repr

/-- The aggregate reported by the time-totals operations. -/
structure TimeTotals where
  estimated_minutes : Int
  logged_minutes : Int
  remaining_minutes : Int
  is_over_budget : Bool
deriving DecidableEq, Repr

/-- Modelled from the spec: the client methods get_project_time_totals,
get_tasklist_time_totals and get_task_time_totals that server.py
(lines 209-283) forwards to are not present under src.  Per spec
section 4.2, the operation follows pagination until exhausted, summing
estimated_minutes and logged_minutes across all tasks in scope as it
goes, and reports (estimated, logged, remaining = estimated - logged,
over_budget = logged > estimated).  The scope is given as the list of
task pages the paginated fetch returns. -/
def time_totals (pages : List (List TaskTime)) : TimeTotals :=
  let acc := pages.foldl
    (fun acc page => page.foldl
      (fun a t => (a.1 + t.estimated_minutes, a.2 + t.logged_minutes)) acc)
    ((0 : Int), (0 : Int))
  { estimated_minutes := acc.1
  , logged_minutes := acc.2
  , remaining_minutes := acc.1 - acc.2
  , is_over_budget := decide (acc.1 < acc.2) }

/-- The unofficial budget view reported by estimate_project_budget. -/
structure BudgetEstimate where
  budget_minutes : Int
  used_minutes : Int
  remaining_minutes : Int
  percent_used : Option ℚ
  is_over_budget : Bool
  has_official_budget : Bool

/-- Modelled from the spec: the client method estimate_project_budget
that server.py (lines 286-314) forwards to is not present under src.
Per spec sections 4.2 and 8, it reports the project-wide time totals as
an unofficial budget, flags the existence of officially configured
budgets, and sets percent_used to logged/estimated*100 when the
estimate is positive and to absent otherwise (never a division
artifact). -/
def estimate_project_budget (pages : List (List TaskTime))
    (has_official : Bool) : BudgetEstimate :=
  let t := time_totals pages
  { budget_minutes := t.estimated_minutes
  , used_minutes := t.logged_minutes
  , remaining_minutes := t.remaining_minutes
  , percent_used :=
      if 0 < t.estimated_minutes then
        some (((t.logged_minutes : ℚ) / (t.estimated_minutes : ℚ)) * 100)
      else none
  , is_over_budget := t.is_over_budget
  , has_official_budget := has_official }

/-- Health classification stated as a property of healthIndicator:
at-risk exactly when there are tasks and the overdue fraction reaches
one tenth or the overdue count reaches three; the only other output is
on-track. -/
theorem healthIndicator_atRisk_iff (total overdue : Nat) :
    (healthIndicator total overdue = "at-risk" ↔
      0 < total ∧ ((1 : ℚ) / 10 ≤ (overdue : ℚ) / (total : ℚ) ∨ 3 ≤ overdue)) ∧
    (healthIndicator total overdue = "at-risk" ∨
      healthIndicator total overdue = "on-track") := by
  have hpct : ∀ x : ℚ, 10 ≤ x * 100 ↔ 1 / 10 ≤ x := by
    intro x
    constructor <;> intro h <;> linarith
  unfold healthIndicator
  by_cases h0 : total = 0
  · subst h0
    rw [if_pos rfl]
    refine ⟨⟨fun hcontra => absurd hcontra (by decide), ?_⟩, Or.inr rfl⟩
    rintro ⟨hlt, -⟩
    exact absurd hlt (lt_irrefl 0)
  · rw [if_neg h0]
    by_cases hc : 10 ≤ ((overdue : ℚ) / (total : ℚ)) * 100 ∨ 3 ≤ overdue
    · rw [if_pos hc]
      refine ⟨⟨fun _ => ⟨Nat.pos_of_ne_zero h0, ?_⟩, fun _ => rfl⟩, Or.inl rfl⟩
      rcases hc with hc | hc
      · exact Or.inl ((hpct _).mp hc)
      · exact Or.inr hc
    · rw [if_neg hc]
      refine ⟨⟨fun hcontra => absurd hcontra (by decide), ?_⟩, Or.inr rfl⟩
      rintro ⟨-, hd⟩
      rcases hd with hd | hd
      · exact absurd (Or.inl ((hpct _).mpr hd)) hc
      · exact absurd (Or.inr hd) hc

/-- C1: for every result of get_project_summary, the health field is
"at-risk" if and only if the total task count is positive and the
overdue fraction is at least one tenth or the overdue count is at least
three; every other case, the zero-task case included, yields "on-track"
(the source guard short-circuits before the division when the total is
zero, which the embedding mirrors with the outer if). -/
theorem get_project_summary_health_iff (p : ProjectData)
    (total overdue thisweek : Nat) :
    ((get_project_summary p total overdue thisweek).health = "at-risk" ↔
      0 < total ∧ ((1 : ℚ) / 10 ≤ (overdue : ℚ) / (total : ℚ) ∨ 3 ≤ overdue)) ∧
    ((get_project_summary p total overdue thisweek).health = "at-risk" ∨
      (get_project_summary p total overdue thisweek).health = "on-track") := by
  have h := healthIndicator_atRisk_iff total overdue
  dsimp only [get_project_summary]
  exact h

/-- C5: get_project_summary leaves a description of at most 200
characters unchanged, and maps a longer description to exactly 200
characters whose first 197 equal the first 197 of the source and whose
last 3 are the ellipsis marker. -/
theorem get_project_summary_description_truncation (p : ProjectData)
    (total overdue thisweek : Nat) (s : List Char)
    (h : p.description = some s) :
    (s.length ≤ 200 →
      (get_project_summary p total overdue thisweek).description = s) ∧
    (200 < s.length →
      (get_project_summary p total overdue thisweek).description.length = 200 ∧
      (get_project_summary p total overdue thisweek).description.take 197 = s.take 197 ∧
      (get_project_summary p total overdue thisweek).description.drop 197 = ['.', '.', '.']) := by
  dsimp only [get_project_summary]
  rw [h, Option.getD_some]
  unfold truncateDescription
  constructor
  · intro hle
    rw [if_neg (by omega)]
  · intro hgt
    rw [if_pos hgt]
    have hlen : (s.take 197).length = 197 := by
      rw [List.length_take]
      omega
    refine ⟨?_, ?_, ?_⟩
    · rw [List.length_append, hlen]
      decide
    · rw [List.take_left' hlen]
    · rw [List.drop_left' hlen]

/-- Witness for the truncation theorem at a 201-character description
and a 5-character description. -/
theorem get_project_summary_description_truncation_witness :
    (get_project_summary
        { id := none, name := none, status := none
        , description := some (List.replicate 201 'a') } 0 0 0).description.length = 200 ∧
    (get_project_summary
        { id := none, name := none, status := none
        , description := some (List.replicate 201 'a') } 0 0 0).description.drop 197 =
      ['.', '.', '.'] ∧
    (get_project_summary
        { id := none, name := none, status := none
        , description := some (List.replicate 5 'a') } 0 0 0).description =
      List.replicate 5 'a' :=
  ⟨((get_project_summary_description_truncation _ 0 0 0 _ rfl).2
      (by rw [List.length_replicate]; omega)).1,
   ((get_project_summary_description_truncation _ 0 0 0 _ rfl).2
      (by rw [List.length_replicate]; omega)).2.2,
   (get_project_summary_description_truncation _ 0 0 0 _ rfl).1
      (by rw [List.length_replicate]; omega)⟩

/-- True exactly when the client method raised instead of producing a
request to issue. -/
def isError (r : Except String Request) : Bool :=
  match r with
  | Except.error _ => true
  | Except.ok _ => false

/-- C6: create_task and update_task raise a validation error, before
any network request, whenever a supplied progress lies outside 0..100
or a supplied estimated_minutes is not strictly positive; progress 0
and progress 100 pass validation (with the estimate absent or valid,
the request is produced). -/
theorem task_validation_before_request
    (name : String) (tasklist_id : Int) (description due_date : Option String)
    (assignee_ids : Option (List String)) (priority : Option String)
    (task_id : String) (uname udesc : Option String) (completed : Option Bool)
    (udue upri : Option String) (est pr : Option Int) :
    (∀ p, pr = some p → p < 0 ∨ 100 < p →
      isError (create_task name tasklist_id description due_date
        assignee_ids priority est pr) = true ∧
      isError (update_task task_id uname udesc completed udue upri est pr) = true) ∧
    (∀ e, est = some e → e ≤ 0 →
      isError (create_task name tasklist_id description due_date
        assignee_ids priority est pr) = true ∧
      isError (update_task task_id uname udesc completed udue upri est pr) = true) ∧
    ((pr = some 0 ∨ pr = some 100) → (∀ e, est = some e → 0 < e) →
      isError (create_task name tasklist_id description due_date
        assignee_ids priority est pr) = false ∧
      isError (update_task task_id uname udesc completed udue upri est pr) = false) := by
  refine ⟨?_, ?_, ?_⟩
  · rintro p rfl hp
    have hcond : ¬ (0 ≤ p ∧ p ≤ 100) := by omega
    cases est with
    | none =>
      simp [create_task, update_task, addEstimated, addProgress, hcond, isError]
    | some e =>
      by_cases he : e ≤ 0
      · simp [create_task, update_task, addEstimated, addProgress, he, isError]
      · simp [create_task, update_task, addEstimated, addProgress, he, hcond, isError]
  · rintro e rfl he
    simp [create_task, update_task, addEstimated, addProgress, he, isError]
  · rintro hp hest
    have hpr : ∃ p, pr = some p ∧ 0 ≤ p ∧ p ≤ 100 := by
      rcases hp with rfl | rfl
      · exact ⟨0, rfl, by omega⟩
      · exact ⟨100, rfl, by omega⟩
    rcases hpr with ⟨p, rfl, hrange⟩
    cases est with
    | none =>
      simp [create_task, update_task, addEstimated, addProgress, hrange, isError]
    | some e =>
      have he : ¬ e ≤ 0 := by
        have := hest e rfl
        omega
      simp [create_task, update_task, addEstimated, addProgress, he, hrange, isError]

/-- Witness for the validation theorem: progress 150 is rejected by
both task operations, progress 0 and progress 100 are accepted, and a
non-positive estimate is rejected. -/
theorem task_validation_before_request_witness :
    isError (create_task "T" 42 none none none none none (some 150)) = true ∧
    isError (update_task "7" none none none none none none (some 150)) = true ∧
    isError (create_task "T" 42 none none none none none (some 0)) = false ∧
    isError (update_task "7" none none none none none none (some 100)) = false ∧
    isError (update_task "7" none none none none none (some (-5)) none) = true :=
  ⟨((task_validation_before_request "T" 42 none none none none "7" none none
      none none none none (some 150)).1 150 rfl (by omega)).1,
   ((task_validation_before_request "T" 42 none none none none "7" none none
      none none none none (some 150)).1 150 rfl (by omega)).2,
   ((task_validation_before_request "T" 42 none none none none "7" none none
      none none none none (some 0)).2.2 (Or.inl rfl) (fun e h => by cases h)).1,
   ((task_validation_before_request "T" 42 none none none none "7" none none
      none none none none (some 100)).2.2 (Or.inr rfl) (fun e h => by cases h)).2,
   ((task_validation_before_request "T" 42 none none none none "7" none none
      none none none (some (-5)) none).2.1 (-5) rfl (by omega)).2⟩

/-- C9: complete_task is extensionally the update_task call with
completed=True, and archive_project is extensionally the
update_project call with status="archived"; in both cases the issued
request is exactly the one the general counterpart issues with that
one fixed argument. -/
theorem convenience_ops_refinement (task_id project_id : String) :
    complete_task task_id =
      update_task task_id none none (some true) none none none none ∧
    complete_task task_id =
      Except.ok { method := "PATCH"
                , path := "/tasks/" ++ task_id ++ ".json"
                , v1 := false
                , envelope := some ("task", [("completed", FieldVal.b true)]) } ∧
    archive_project project_id =
      update_project project_id none none (some "archived") none none ∧
    archive_project project_id =
      Except.ok { method := "PATCH"
                , path := "/projects/" ++ project_id ++ ".json"
                , v1 := false
                , envelope := some ("project", [("status", FieldVal.s "archived")]) } := by
  refine ⟨rfl, ?_, rfl, ?_⟩
  · simp [complete_task, update_task, addEstimated, addProgress, optField, dinsert]
  · simp [archive_project, update_project, optField, dinsert]

/-- C10: update_project raises its validation error exactly when all
five update fields are absent, and update_task_list raises its
validation error exactly when both name and description are absent; in
either case nothing is sent, and supplying at least one field produces
the request. -/
theorem update_requires_field (project_id : String)
    (name description status start_date end_date : Option String)
    (tasklist_id : String) (tl_name tl_description : Option String) :
    (name = none ∧ description = none ∧ status = none ∧
        start_date = none ∧ end_date = none →
      update_project project_id name description status start_date end_date =
        Except.error "update_project requires at least one field to update") ∧
    (¬ (name = none ∧ description = none ∧ status = none ∧
        start_date = none ∧ end_date = none) →
      ∃ r, update_project project_id name description status start_date end_date =
        Except.ok r) ∧
    (tl_name = none ∧ tl_description = none →
      update_task_list tasklist_id tl_name tl_description =
        Except.error "update_task_list requires at least one of name or description") ∧
    (¬ (tl_name = none ∧ tl_description = none) →
      ∃ r, update_task_list tasklist_id tl_name tl_description = Except.ok r) := by
  refine ⟨?_, ?_, ?_, ?_⟩
  · intro h
    unfold update_project
    rw [if_pos h]
  · intro h
    unfold update_project
    rw [if_neg h]
    exact ⟨_, rfl⟩
  · intro h
    unfold update_task_list
    rw [if_pos h]
  · intro h
    unfold update_task_list
    rw [if_neg h]
    exact ⟨_, rfl⟩

/-- Witness for the no-field validation theorem: the all-absent calls
raise, and supplying a single field yields a request. -/
theorem update_requires_field_witness :
    update_project "1001" none none none none none =
      Except.error "update_project requires at least one field to update" ∧
    (∃ r, update_project "1001" (some "New name") none none none none =
      Except.ok r) ∧
    update_task_list "2002" none none =
      Except.error "update_task_list requires at least one of name or description" ∧
    (∃ r, update_task_list "2002" none (some "New description") = Except.ok r) :=
  ⟨(update_requires_field "1001" none none none none none "2002" none none).1
      ⟨rfl, rfl, rfl, rfl, rfl⟩,
   (update_requires_field "1001" (some "New name") none none none none
      "2002" none none).2.1 (by simp),
   (update_requires_field "1001" none none none none none "2002" none none).2.2.1
      ⟨rfl, rfl⟩,
   (update_requires_field "1001" none none none none none "2002" none
      (some "New description")).2.2.2 (by simp)⟩

/-- C7: session construction fails with the missing-token error when
the bearer token is absent or empty, fails with the distinct
missing-domain error when the token is present but both the
installation-domain header and the configured default domain are
absent, and the two errors are different; the function only constructs
the client, so either error precedes any remote request. -/
theorem get_teamwork_client_errors (token header_domain : Option String)
    (default_domain : String) :
    ((token = none ∨ token = some "") →
      get_teamwork_client token header_domain default_domain =
        Except.error AuthError.missingToken) ∧
    (∀ t, token = some t → t ≠ "" →
      (header_domain = none ∨ header_domain = some "") → default_domain = "" →
      get_teamwork_client token header_domain default_domain =
        Except.error AuthError.missingDomain) ∧
    AuthError.missingToken ≠ AuthError.missingDomain := by
  refine ⟨?_, ?_, by decide⟩
  · rintro (rfl | rfl)
    · rfl
    · simp [get_teamwork_client]
  · rintro t rfl ht hd rfl
    have hdom : pyOrStr header_domain "" = "" := by
      rcases hd with rfl | rfl <;> simp [pyOrStr]
    simp [get_teamwork_client, ht, hdom]

/-- Witness for the session-construction theorem: a missing token and a
missing domain each produce their distinct error. -/
theorem get_teamwork_client_errors_witness :
    get_teamwork_client none (some "acme.teamwork.com") "fallback.teamwork.com" =
      Except.error AuthError.missingToken ∧
    get_teamwork_client (some "tok-123") none "" =
      Except.error AuthError.missingDomain :=
  ⟨(get_teamwork_client_errors none (some "acme.teamwork.com")
      "fallback.teamwork.com").1 (Or.inl rfl),
   (get_teamwork_client_errors (some "tok-123") none "").2.1 "tok-123" rfl
      (by decide) (Or.inl rfl) rfl⟩

/-- Counterexample to C8 as stated: a v1 response with status 500 and
an empty body raises the HTTP failure instead of returning the success
marker, and a response with the non-2xx status 304 returns the success
marker instead of raising. -/
theorem request_v1_claim_counterexample :
    request_v1 (HttpOutcome.response 500 "") ≠ V1Result.successMarker ∧
    request_v1 (HttpOutcome.response 500 "") = V1Result.apiError 500 "" ∧
    request_v1 (HttpOutcome.response 304 "") = V1Result.successMarker := by
  decide

/-- C8 amended: among v1 responses whose status is outside the HTTP
error range 400-599, those with status 204 or an empty body are
normalized to the success marker; every response with status in
400-599 raises a single failure carrying the status code and raw body
text; network-level failures raise a transport failure distinct from
the HTTP failure. -/
theorem request_v1_error_normalization (status : Nat) (body msg : String) :
    (¬ (400 ≤ status ∧ status < 600) → (status = 204 ∨ body = "") →
      request_v1 (HttpOutcome.response status body) = V1Result.successMarker) ∧
    ((400 ≤ status ∧ status < 600) →
      request_v1 (HttpOutcome.response status body) =
        V1Result.apiError status body) ∧
    (request_v1 (HttpOutcome.networkFailure msg) = V1Result.transportError msg) ∧
    (∀ s b m, V1Result.apiError s b ≠ V1Result.transportError m) := by
  refine ⟨?_, ?_, rfl, ?_⟩
  · intro h1 h2
    simp only [request_v1]
    rw [if_neg h1, if_pos h2]
  · intro h
    simp only [request_v1]
    rw [if_pos h]
  · intro s b m h
    exact V1Result.noConfusion h

/-- Witness for the amended v1 normalization theorem: a 204 response is
normalized to the success marker and a 404 raises the HTTP failure with
status and body. -/
theorem request_v1_error_normalization_witness :
    request_v1 (HttpOutcome.response 204 "ignored") = V1Result.successMarker ∧
    request_v1 (HttpOutcome.response 404 "not found") =
      V1Result.apiError 404 "not found" :=
  ⟨(request_v1_error_normalization 204 "ignored" "x").1 (by decide) (Or.inl rfl),
   (request_v1_error_normalization 404 "not found" "x").2.1 (by decide)⟩

/-- Folding the per-task accumulator over one page adds that page's
estimated and logged sums to the accumulator. -/
theorem page_foldl_totals (page : List TaskTime) (a : Int × Int) :
    page.foldl
        (fun a t => (a.1 + t.estimated_minutes, a.2 + t.logged_minutes)) a =
      (a.1 + (page.map TaskTime.estimated_minutes).sum,
       a.2 + (page.map TaskTime.logged_minutes).sum) := by
  induction page generalizing a with
  | nil => simp
  | cons t ts ih =>
    rw [List.foldl_cons, ih]
    simp only [List.map_cons, List.sum_cons, Prod.mk.injEq]
    constructor <;> ring

/-- Folding page accumulation over all pages adds the sums over the
concatenation of the pages to the accumulator. -/
theorem pages_foldl_totals (pages : List (List TaskTime)) (a : Int × Int) :
    pages.foldl
        (fun acc page => page.foldl
          (fun a t => (a.1 + t.estimated_minutes, a.2 + t.logged_minutes)) acc) a =
      (a.1 + ((pages.flatten).map TaskTime.estimated_minutes).sum,
       a.2 + ((pages.flatten).map TaskTime.logged_minutes).sum) := by
  induction pages generalizing a with
  | nil => simp
  | cons pg pgs ih =>
    rw [List.foldl_cons, ih, page_foldl_totals]
    simp only [List.flatten_cons, List.map_append, List.sum_append, Prod.mk.injEq]
    constructor <;> ring

/-- C2: for every paginated scope, the time-totals operation reports
the estimated and logged sums over all tasks of all pages, remaining
equal to estimated minus logged, and over_budget true exactly when
logged is strictly greater than estimated (so equality yields false). -/
theorem time_totals_spec (pages : List (List TaskTime)) :
    (time_totals pages).estimated_minutes =
      ((pages.flatten).map TaskTime.estimated_minutes).sum ∧
    (time_totals pages).logged_minutes =
      ((pages.flatten).map TaskTime.logged_minutes).sum ∧
    (time_totals pages).remaining_minutes =
      (time_totals pages).estimated_minutes - (time_totals pages).logged_minutes ∧
    ((time_totals pages).is_over_budget = true ↔
      (time_totals pages).logged_minutes > (time_totals pages).estimated_minutes) := by
  unfold time_totals
  rw [pages_foldl_totals]
  refine ⟨by simp, by simp, rfl, ?_⟩
  simp only [decide_eq_true_eq]

/-- C3: whenever the aggregated estimate is zero, the unofficial budget
reports percent_used as absent rather than any division artifact. -/
theorem estimate_project_budget_no_zero_divide (pages : List (List TaskTime))
    (has_official : Bool)
    (h : (estimate_project_budget pages has_official).budget_minutes = 0) :
    (estimate_project_budget pages has_official).percent_used = none := by
  have h0 : (time_totals pages).estimated_minutes = 0 := h
  dsimp only [estimate_project_budget]
  rw [if_neg (by rw [h0]; exact lt_irrefl 0)]

/-- Witness for the zero-estimate theorem: a scope with a single task
carrying no estimate but 120 logged minutes reports no percentage. -/
theorem estimate_project_budget_no_zero_divide_witness :
    (estimate_project_budget [[{ estimated_minutes := 0, logged_minutes := 120 }]]
        false).percent_used = none :=
  estimate_project_budget_no_zero_divide _ false (by decide)

/-- C4 evaluated on the code: the minimal projection of a project that
carries a financial budget (project 1174174 with financialBudget id
127645, the budgeted project exercised by the repo's own verification
scripts) keeps only the keys id, name, status and company, so the
budget-identifying keys timeBudget and financialBudget are absent from
every minimal-mode entry, contradicting the claim and the repo's
verify_fix.py check. -/
theorem list_projects_minimal_drops_budget_fields :
    (RawProject.financialBudget
        { id := some 1174174, name := some "Rockline", status := some "active"
        , companyName := some "Dynamic8"
        , timeBudget := some { id := 127644 }
        , financialBudget := some { id := 127645 } } = some { id := 127645 }) ∧
    ((minimalProject
        { id := some 1174174, name := some "Rockline", status := some "active"
        , companyName := some "Dynamic8"
        , timeBudget := some { id := 127644 }
        , financialBudget := some { id := 127645 } }).map Prod.fst =
      ["id", "name", "status", "company"]) ∧
    ¬ ("financialBudget" ∈ (minimalProject
        { id := some 1174174, name := some "Rockline", status := some "active"
        , companyName := some "Dynamic8"
        , timeBudget := some { id := 127644 }
        , financialBudget := some { id := 127645 } }).map Prod.fst) ∧
    ¬ ("timeBudget" ∈ (minimalProject
        { id := some 1174174, name := some "Rockline", status := some "active"
        , companyName := some "Dynamic8"
        , timeBudget := some { id := 127644 }
        , financialBudget := some { id := 127645 } }).map Prod.fst) ∧
    (list_projects_minimal
        [{ id := some 1174174, name := some "Rockline", status := some "active"
         , companyName := some "Dynamic8"
         , timeBudget := some { id := 127644 }
         , financialBudget := some { id := 127645 } }] =
      [[ ("id", some (FieldVal.i 1174174))
       , ("name", some (FieldVal.s "Rockline"))
       , ("status", some (FieldVal.s "active"))
       , ("company", some (FieldVal.s "Dynamic8")) ]]) := by
  decide
